import Mathlib

/-!
Verification of the bulk object-transfer engine duplicated across the two
storage backends of this repository, `bunny_cdn.py` (FTP) and
`hetzner_s3.py` (S3).  The Python functions are shallowly embedded as Lean
definitions: outcome counts become naturals, the floating point percentage
in `download_command` is modelled with exact rational arithmetic, the
connection pool becomes a list of `Session` values, network effects become
explicit attempt oracles and operation traces.
-/

/-- Ternary run verdict of the Outcome Classifier: the three distinguishable
branches of `download_command` (success, degraded success, failure). -/
inductive Verdict
  | Success
  | DegradedSuccess
  | Failure
deriving DecidableEq, Repr

/-- Embeds the verdict logic of `download_command` (bunny_cdn.py lines
411-438, hetzner_s3.py lines 555-582, identical code): computes
`success_rate = successful / total_attempted * 100` and classifies.  The
Python float expression is modelled with exact rational arithmetic. -/
def downloadVerdict (successful failed corrupted : ℕ) : Verdict :=
  if successful + failed + corrupted = 0 then Verdict.Failure
  else if successful = 0 then Verdict.Failure
  else if (successful : ℚ) / ((successful + failed + corrupted : ℕ) : ℚ) * 100 ≥ 90 then
    Verdict.Success
  else if (successful : ℚ) / ((successful + failed + corrupted : ℕ) : ℚ) * 100 ≥ 70 then
    Verdict.DegradedSuccess
  else Verdict.Failure

/-- Exit code for each verdict, as returned branch by branch in
`download_command`: 1, 1, 0, 0, 1. -/
def verdictExitCode : Verdict → ℕ
  | Verdict.Success => 0
  | Verdict.DegradedSuccess => 0
  | Verdict.Failure => 1

/-- Process exit code of the `download` subcommand once the counts are in. -/
def downloadExitCode (successful failed corrupted : ℕ) : ℕ :=
  verdictExitCode (downloadVerdict successful failed corrupted)

/-- Stated classifier formula, written from the spec words of the claim:
`successRate = successful / totalAttempted`, zero-total and zero-successful
checks first, then the 0.90 and 0.70 thresholds in order. -/
def claimClassify (successful failed corrupted : ℕ) : Verdict :=
  if successful + failed + corrupted = 0 then Verdict.Failure
  else if successful = 0 then Verdict.Failure
  else if (successful : ℚ) / ((successful + failed + corrupted : ℕ) : ℚ) ≥ 9 / 10 then
    Verdict.Success
  else if (successful : ℚ) / ((successful + failed + corrupted : ℕ) : ℚ) ≥ 7 / 10 then
    Verdict.DegradedSuccess
  else Verdict.Failure

/-- Embeds the final check of `upload_command` (bunny_cdn.py lines 468-473,
hetzner_s3.py lines 613-618): exit 1 when any upload failed, else 0. -/
def uploadExitCode (successful failed : ℕ) : ℕ :=
  if failed > 0 then 1 else 0

/-- Session: an authenticated handle to the remote endpoint.  `alive`
records whether a liveness probe (FTP `pwd` / S3 `list_buckets`) on it
would succeed. -/
structure Session where
  sid : ℕ
  alive : Bool
deriving DecidableEq, Repr

/-- What a release call did with the session: appended it to the idle
pool, explicitly closed it (`ftp.quit()`), or dropped the reference
without an explicit close call. -/
inductive ReleaseOutcome
  | returnedToPool
  | closed
  | dropped
deriving DecidableEq, Repr

/-- Embeds `BunnyCDNClient._get_connection` (bunny_cdn.py lines 50-55):
pop the most recently returned idle session if the pool is non-empty,
otherwise create a fresh one (`_create_connection`, abstracted as the
`fresh` argument).  No liveness probe is performed.  Returns the session,
the new pool, and whether a fresh session was created. -/
def getConnection (pool : List Session) (fresh : Session) : Session × List Session × Bool :=
  match pool.getLast? with
  | some s => (s, pool.dropLast, false)
  | none => (fresh, [], true)

/-- Embeds `HetznerS3Client._get_client` (hetzner_s3.py lines 104-109),
whose code is identical in structure to `_get_connection`. -/
def getClient (pool : List Session) (fresh : Session) : Session × List Session × Bool :=
  getConnection pool fresh

/-- Embeds `BunnyCDNClient._return_connection` (bunny_cdn.py lines 57-72):
probe liveness (`ftp.pwd()`); if alive and the pool holds fewer than 10
sessions, append it; if alive but the pool is full, `ftp.quit()` it; if
the probe fails, attempt `ftp.quit()` swallowing any error. -/
def returnConnection (pool : List Session) (s : Session) : List Session × ReleaseOutcome :=
  if s.alive then
    if pool.length < 10 then (pool ++ [s], ReleaseOutcome.returnedToPool)
    else (pool, ReleaseOutcome.closed)
  else (pool, ReleaseOutcome.closed)

/-- Embeds `HetznerS3Client._return_client` (hetzner_s3.py lines 111-121):
probe liveness (`client.list_buckets()`); if alive and the pool holds
fewer than 10 sessions, append it; otherwise the reference is simply
dropped — there is no explicit close call in either the full-pool or the
dead-client branch. -/
def returnClient (pool : List Session) (s : Session) : List Session × ReleaseOutcome :=
  if s.alive then
    if pool.length < 10 then (pool ++ [s], ReleaseOutcome.returnedToPool)
    else (pool, ReleaseOutcome.dropped)
  else (pool, ReleaseOutcome.dropped)

/-- A pool operation: a worker acquires a session (a fresh one is supplied
in case the pool is empty) or releases one. -/
inductive PoolOp
  | acq (fresh : Session)
  | rel (s : Session)

/-- One pool transition of the Bunny CDN client. -/
def bunnyPoolStep (pool : List Session) : PoolOp → List Session
  | PoolOp.acq fresh => (getConnection pool fresh).2.1
  | PoolOp.rel s => (returnConnection pool s).1

/-- Pool contents after a sequence of acquire/release calls (Bunny CDN). -/
def bunnyPoolRun (pool : List Session) (ops : List PoolOp) : List Session :=
  ops.foldl bunnyPoolStep pool

/-- One pool transition of the Hetzner S3 client. -/
def hetznerPoolStep (pool : List Session) : PoolOp → List Session
  | PoolOp.acq fresh => (getClient pool fresh).2.1
  | PoolOp.rel s => (returnClient pool s).1

/-- Pool contents after a sequence of acquire/release calls (Hetzner S3). -/
def hetznerPoolRun (pool : List Session) (ops : List PoolOp) : List Session :=
  ops.foldl hetznerPoolStep pool

/-- Embeds the retry loop shared by `HetznerS3Client.download_file`
(hetzner_s3.py lines 214-263) and `HetznerS3Client.upload_file` (lines
277-330): `for attempt in range(3)`, each attempt acquires a client from
the pool, runs the transfer body (abstracted by the oracle `attemptOk`),
on success returns the client to the pool and reports `True` once; on
failure the client is not returned, and if `attempt < 2` the loop sleeps
`retry_delay * 2 ** attempt` seconds (`retry_delay = 1`) and retries,
else it reports `False`.  The result records (reported boolean, attempts
made, backoff sleeps performed, final pool). -/
def hetznerRetryGo (attemptOk : ℕ → Bool) (freshAt : ℕ → Session) :
    List ℕ → List Session → Bool × ℕ × List ℕ × List Session
  | [], pool => (false, 0, [], pool)
  | a :: rest, pool =>
    let acq := getClient pool (freshAt a)
    if attemptOk a then
      let rel := returnClient acq.2.1 acq.1
      (true, 1, [], rel.1)
    else if a < 2 then
      let cont := hetznerRetryGo attemptOk freshAt rest acq.2.1
      (cont.1, cont.2.1 + 1, 1 * 2 ^ a :: cont.2.2.1, cont.2.2.2)
    else (false, 1, [], acq.2.1)

/-- Embeds `HetznerS3Client.download_file`: the retry loop over attempts
0, 1, 2 (`max_retries = 3`). -/
def hetzner_download_file (attemptOk : ℕ → Bool) (freshAt : ℕ → Session)
    (pool : List Session) : Bool × ℕ × List ℕ × List Session :=
  hetznerRetryGo attemptOk freshAt [0, 1, 2] pool

/-- Embeds `HetznerS3Client.upload_file` (hetzner_s3.py lines 265-330):
first checks `local_path.exists()` and returns `False` immediately when
the source is absent — before the retry loop, before any pool or remote
interaction; otherwise runs the same 3-attempt retry loop. -/
def hetzner_upload_file (srcExists : Bool) (attemptOk : ℕ → Bool) (freshAt : ℕ → Session)
    (pool : List Session) : Bool × ℕ × List ℕ × List Session :=
  if srcExists then hetznerRetryGo attemptOk freshAt [0, 1, 2] pool
  else (false, 0, [], pool)

/-- Embeds `BunnyCDNClient.download_file` (bunny_cdn.py lines 120-155): a
single try/except with no retry loop — one attempt, acquired connection
returned only on the success path, `False` on any exception, no sleeps. -/
def bunny_download_file (attemptOk : ℕ → Bool) (fresh : Session)
    (pool : List Session) : Bool × ℕ × List ℕ × List Session :=
  let acq := getConnection pool fresh
  if attemptOk 0 then
    let rel := returnConnection acq.2.1 acq.1
    (true, 1, [], rel.1)
  else (false, 1, [], acq.2.1)

/-- Embeds `BunnyCDNClient.upload_file` (bunny_cdn.py lines 157-194):
returns `False` immediately when the local source is absent, before
`_get_connection`; otherwise a single attempt with no retry. -/
def bunny_upload_file (srcExists : Bool) (attemptOk : ℕ → Bool) (fresh : Session)
    (pool : List Session) : Bool × ℕ × List ℕ × List Session :=
  if srcExists then
    let acq := getConnection pool fresh
    if attemptOk 0 then
      let rel := returnConnection acq.2.1 acq.1
      (true, 1, [], rel.1)
    else (false, 1, [], acq.2.1)
  else (false, 0, [], pool)

/-- Python strings (file names, keys, extensions) are modelled as lists of
characters, so every string operation below is kernel-computable. -/
abbrev Str := List Char

/-- Models Python `s.endswith('/')`: the key ends in the separator. -/
def endsWithSlash (key : Str) : Bool :=
  List.isSuffixOf ['/'] key

/-- Embeds the extension test shared by both listers:
`any(key.lower().endswith(ext.lower()) for ext in extensions)`. -/
def extMatch (key : Str) (exts : List Str) : Bool :=
  exts.any (fun ext => List.isSuffixOf (ext.map Char.toLower) (key.map Char.toLower))

/-- Per-key filter of `HetznerS3Client.list_objects` (hetzner_s3.py lines
185-204): skip keys ending in the separator, then, when the extension
list is non-empty (Python truthiness of `extensions`), skip keys whose
lowercased form ends with none of the lowercased extensions. -/
def hetznerKeep (exts : List Str) (key : Str) : Bool :=
  if endsWithSlash key then false
  else if exts.isEmpty then true
  else extMatch key exts

/-- Embeds the filtering of `HetznerS3Client.list_objects` over the keys
delivered by the paginator. -/
def list_objects (keys : List Str) (exts : List Str) : List Str :=
  keys.filter (hetznerKeep exts)

/-- Per-item filter of `BunnyCDNClient.list_files` (bunny_cdn.py lines
100-114): keep an item only when `'.' in item` (the comment reads "Assume
files have extensions"), then apply the same extension test when the
extension list is non-empty. -/
def bunnyKeep (exts : List Str) (item : Str) : Bool :=
  if item.contains '.' then
    if exts.isEmpty then true
    else extMatch item exts
  else false

/-- Embeds the filtering of `BunnyCDNClient.list_files` over the names
delivered by `ftp.nlst()`. -/
def list_files (items : List Str) (exts : List Str) : List Str :=
  items.filter (bunnyKeep exts)

/-- Terminal state of one submitted download task, as observed by the
collection loop of `download_directory`: either `future.result()` yielded
a boolean `success`, in which case the orchestrator inspects the
destination file (`destExists`, `destSize`), or the future raised. -/
inductive TaskResult
  | ok (success : Bool) (destExists : Bool) (destSize : ℕ)
  | exn
deriving DecidableEq, Repr

/-- A completed download task: its filename and terminal state. -/
structure Completed where
  name : Str
  res : TaskResult
deriving DecidableEq, Repr

/-- Aggregate state of the collection loop of `download_directory`: the
three counters and the two identifier lists. -/
structure Agg where
  successful : ℕ
  failed : ℕ
  corrupted : ℕ
  failedFiles : List Str
  corruptedFiles : List Str
deriving DecidableEq, Repr

/-- Embeds one iteration of the `as_completed` loop of
`download_directory` (bunny_cdn.py lines 250-273, hetzner_s3.py lines
374-399): on `success` verify the destination exists with non-zero size —
counting the item successful, else corrupted; on `False` or on an
exception from the future, count it failed. -/
def stepAgg (a : Agg) (c : Completed) : Agg :=
  match c.res with
  | TaskResult.ok success de sz =>
    if success then
      if de && decide (0 < sz) then
        { a with successful := a.successful + 1 }
      else
        { a with corrupted := a.corrupted + 1,
                 corruptedFiles := a.corruptedFiles ++ [c.name] }
    else
      { a with failed := a.failed + 1, failedFiles := a.failedFiles ++ [c.name] }
  | TaskResult.exn =>
    { a with failed := a.failed + 1, failedFiles := a.failedFiles ++ [c.name] }

/-- Embeds the whole collection loop of `download_directory`: fold the
per-item step over the completed tasks, starting from zero counters. -/
def downloadAggregate (cs : List Completed) : Agg :=
  cs.foldl stepAgg ⟨0, 0, 0, [], []⟩

/-- Classification predicate: a completed task the loop counts as
corrupted — the transfer reported success but the destination is missing
or has zero size. -/
def isCorrupt (c : Completed) : Bool :=
  match c.res with
  | TaskResult.ok true de sz => !(de && decide (0 < sz))
  | _ => false

/-- Classification predicate: a completed task the loop counts as failed —
the transfer reported `False` or the future raised. -/
def isFailedTask (c : Completed) : Bool :=
  match c.res with
  | TaskResult.ok false _ _ => true
  | TaskResult.exn => true
  | _ => false

/-- Classification predicate: a completed task the loop counts as
successful. -/
def isSuccessTask (c : Completed) : Bool :=
  match c.res with
  | TaskResult.ok true de sz => de && decide (0 < sz)
  | _ => false

/-- Terminal state of one submitted upload task: `future.result()` yielded
a boolean, or the future raised. -/
inductive UploadRes
  | ok (success : Bool)
  | exn
deriving DecidableEq, Repr

/-- Embeds the `as_completed` loop of `upload_directory` (bunny_cdn.py
lines 327-342, hetzner_s3.py lines 453-468): count successes and
failures, an exception counting as a failure. -/
def uploadAggregate (rs : List UploadRes) : ℕ × ℕ :=
  rs.foldl
    (fun acc r =>
      match r with
      | UploadRes.ok true => (acc.1 + 1, acc.2)
      | UploadRes.ok false => (acc.1, acc.2 + 1)
      | UploadRes.exn => (acc.1, acc.2 + 1))
    (0, 0)

/-- Embeds `upload_directory` (bunny_cdn.py lines 290-345, hetzner_s3.py
lines 416-471): if the local directory does not exist, return `(0, 0)`;
if the walk finds no regular files, return `(0, 0)`; otherwise submit one
upload task per file and aggregate.  The second component counts the
submitted remote transfer tasks (zero on both early returns, which happen
before any executor or client interaction). -/
def upload_directory (dirExists : Bool) (files : List UploadRes) : (ℕ × ℕ) × ℕ :=
  if !dirExists then ((0, 0), 0)
  else if files.isEmpty then ((0, 0), 0)
  else (uploadAggregate files, files.length)

/-- Embeds `upload_command` (bunny_cdn.py lines 441-473, hetzner_s3.py
lines 585-618) from the connection test on: exit 1 when the test fails;
otherwise run `upload_directory` and exit 1 when `failed > 0`, else 0. -/
def upload_command (connOk : Bool) (dirExists : Bool) (files : List UploadRes) : ℕ :=
  if !connOk then 1
  else
    uploadExitCode (upload_directory dirExists files).1.1 (upload_directory dirExists files).1.2

/-- A pool filled to its capacity of 10 with live sessions. -/
def tenPool : List Session :=
  (List.range 10).map (fun i => { sid := i, alive := true })

/-- Claim C1: the download subcommand's verdict and exit code are computed
from the counts exactly by the stated classifier formula — total of zero or
zero successes give Failure (exit 1), the zero-successful check precedes
the rate checks, rate at least 0.90 gives Success (exit 0), rate at least
0.70 gives DegradedSuccess (exit 0, so exactly 0.70 is DegradedSuccess),
anything below gives Failure (exit 1). -/
theorem downloadVerdict_eq_claimClassify (successful failed corrupted : ℕ) :
    downloadVerdict successful failed corrupted = claimClassify successful failed corrupted ∧
    downloadExitCode successful failed corrupted =
      verdictExitCode (claimClassify successful failed corrupted) := by
  have hmain :
      downloadVerdict successful failed corrupted = claimClassify successful failed corrupted := by
    unfold downloadVerdict claimClassify
    split_ifs with h1 h2 h3 h4 h5 h6 h7 h8 <;> first
      | rfl
      | (exfalso; set r : ℚ := (successful : ℚ) / ((successful + failed + corrupted : ℕ) : ℚ)
         linarith)
  exact ⟨hmain, by rw [downloadExitCode, hmain]⟩

/-- Counterexample to claim C2: at 7 successes and 3 failures the success
rate is 0.70, the Outcome Classifier yields DegradedSuccess, which the
claim maps to exit code 0 — yet `upload_command` exits 1, because its
check is `failed > 0` and ignores the rate. -/
theorem upload_exit_ignores_rate_cex :
    uploadExitCode 7 3 = 1 ∧
    claimClassify 7 3 0 = Verdict.DegradedSuccess ∧
    verdictExitCode (claimClassify 7 3 0) = 0 := by
  have h : claimClassify 7 3 0 = Verdict.DegradedSuccess := by
    norm_num [claimClassify]
  exact ⟨rfl, h, by rw [h]; rfl⟩

/-- Claim C2 as amended: the upload subcommand's exit code comes from the
check `failed > 0` alone — it is 0 exactly when no item failed and 1
exactly when at least one failed, regardless of the success rate; the
Outcome Classifier is not consulted for uploads. -/
theorem upload_exit_iff_no_failures (successful failed : ℕ) :
    (uploadExitCode successful failed = 0 ↔ failed = 0) ∧
    (uploadExitCode successful failed = 1 ↔ 0 < failed) := by
  unfold uploadExitCode
  split_ifs with h <;> simp <;> omega

/-- Counterexample to claim C3: under an attempt oracle that fails
transiently on the first attempt and would succeed from the third on,
`BunnyCDNClient.download_file` reports `False` after a single attempt with
no backoff sleep — it has no retry loop, so the claimed 3-attempt policy
does not hold for it. -/
theorem bunny_download_single_attempt_cex :
    bunny_download_file (fun n => decide (n = 2)) { sid := 100, alive := true } [] =
      (false, 1, [], []) := by
  rfl

/-- Helper: the retry loop makes at most as many attempts as there are
attempt indices left. -/
theorem hetznerRetryGo_attempts_le (br : ℕ → Bool) (freshAt : ℕ → Session) :
    ∀ (l : List ℕ) (pool : List Session),
      (hetznerRetryGo br freshAt l pool).2.1 ≤ l.length := by
  intro l
  induction l with
  | nil => intro pool; simp [hetznerRetryGo]
  | cons a rest ih =>
    intro pool
    simp only [hetznerRetryGo, List.length_cons]
    split_ifs with hok ha
    · simp
    · simpa using Nat.succ_le_succ (ih _)
    · simp

/-- Claim C3 as amended: in the Hetzner S3 client, `download_file` and
`upload_file` make up to 3 attempts, sleeping the exponentially growing
backoff 1 then 2 time units between consecutive attempts, and a transfer
that fails transiently on the first two attempts and succeeds on the third
reports `True` exactly once (the function returns a single boolean after 3
attempts); the Bunny CDN `download_file` has no retry loop and always
makes exactly one attempt, so such a transfer reports `False` there. -/
theorem hetzner_retry_policy (attemptOk : ℕ → Bool) (freshAt : ℕ → Session)
    (fresh : Session) (pool : List Session)
    (h0 : attemptOk 0 = false) (h1 : attemptOk 1 = false) (h2 : attemptOk 2 = true) :
    (hetzner_download_file attemptOk freshAt pool).1 = true ∧
    (hetzner_download_file attemptOk freshAt pool).2.1 = 3 ∧
    (hetzner_download_file attemptOk freshAt pool).2.2.1 = [1, 2] ∧
    (hetzner_upload_file true attemptOk freshAt pool).1 = true ∧
    (hetzner_upload_file true attemptOk freshAt pool).2.1 = 3 ∧
    (hetzner_upload_file true attemptOk freshAt pool).2.2.1 = [1, 2] ∧
    (∀ br : ℕ → Bool, (hetznerRetryGo br freshAt [0, 1, 2] pool).2.1 ≤ 3) ∧
    (bunny_download_file attemptOk fresh pool).2.1 = 1 ∧
    (bunny_download_file attemptOk fresh pool).1 = false := by
  have hbound : ∀ br : ℕ → Bool, (hetznerRetryGo br freshAt [0, 1, 2] pool).2.1 ≤ 3 := by
    intro br
    simpa using hetznerRetryGo_attempts_le br freshAt [0, 1, 2] pool
  refine ⟨?_, ?_, ?_, ?_, ?_, ?_, hbound, ?_, ?_⟩ <;>
    simp [hetzner_download_file, hetzner_upload_file, hetznerRetryGo,
          bunny_download_file, h0, h1, h2]

/-- Witness for `hetzner_retry_policy` at a concrete oracle that fails the
first two attempts and succeeds on the third, over the empty pool. -/
theorem hetzner_retry_policy_witness :
    (hetzner_download_file (fun n => decide (n = 2))
      (fun i => { sid := i, alive := true }) []).2.1 = 3 :=
  (hetzner_retry_policy (fun n => decide (n = 2)) (fun i => { sid := i, alive := true })
    { sid := 0, alive := true } [] rfl rfl rfl).2.1

/-- Claim C4: an upload whose local source file does not exist returns
`False` immediately — zero attempts (so no remote call and no session
acquired), no backoff sleep, and the session pool left unchanged — in
both `HetznerS3Client.upload_file` and `BunnyCDNClient.upload_file`. -/
theorem upload_missing_source_immediate (attemptOk : ℕ → Bool) (freshAt : ℕ → Session)
    (fresh : Session) (pool : List Session) :
    hetzner_upload_file false attemptOk freshAt pool = (false, 0, [], pool) ∧
    bunny_upload_file false attemptOk fresh pool = (false, 0, [], pool) :=
  ⟨rfl, rfl⟩

/-- Counterexample to claim C5: a pool holding one idle but dead session.
`_get_connection` / `_get_client` return that dead session directly (and
create nothing new), so the returned idle session cannot have passed a
liveness probe during acquisition — no probe happens on acquire at all. -/
theorem acquire_no_probe_cex :
    getConnection [{ sid := 0, alive := false }] { sid := 1, alive := true } =
      ({ sid := 0, alive := false }, [], false) ∧
    getClient [{ sid := 0, alive := false }] { sid := 1, alive := true } =
      ({ sid := 0, alive := false }, [], false) ∧
    Session.alive { sid := 0, alive := false } = false :=
  ⟨rfl, rfl, rfl⟩

/-- Claim C5 as amended: acquisition pops the most recently returned idle
session without any liveness probe; a new authenticated session is created
exactly when the pool is empty.  Liveness is only checked later, at
release time.  `_get_client` behaves identically to `_get_connection`. -/
theorem acquire_pops_or_creates (pool : List Session) (fresh : Session) :
    (pool = [] → getConnection pool fresh = (fresh, [], true)) ∧
    (∀ rest s, pool = rest ++ [s] → getConnection pool fresh = (s, rest, false)) ∧
    getClient pool fresh = getConnection pool fresh := by
  refine ⟨?_, ?_, rfl⟩
  · intro h
    subst h
    rfl
  · intro rest s h
    subst h
    simp [getConnection, List.getLast?_concat, List.dropLast_concat]

/-- Witness for `acquire_pops_or_creates` on the empty pool. -/
theorem acquire_pops_or_creates_witness :
    getConnection [] { sid := 0, alive := true } = ({ sid := 0, alive := true }, [], true) :=
  (acquire_pops_or_creates [] { sid := 0, alive := true }).1 rfl

/-- Helper: a fold of pool transitions preserves the capacity bound as
long as each single transition does. -/
theorem poolFold_length_le (step : List Session → PoolOp → List Session)
    (hstep : ∀ p op, p.length ≤ 10 → (step p op).length ≤ 10) :
    ∀ (ops : List PoolOp) (pool : List Session), pool.length ≤ 10 →
      (ops.foldl step pool).length ≤ 10 := by
  intro ops
  induction ops with
  | nil => intro pool h; simpa using h
  | cons op rest ih =>
    intro pool h
    simp only [List.foldl_cons]
    exact ih _ (hstep pool op h)

/-- Helper: one Bunny CDN pool transition preserves the capacity bound. -/
theorem bunnyPoolStep_length_le (pool : List Session) (op : PoolOp)
    (h : pool.length ≤ 10) : (bunnyPoolStep pool op).length ≤ 10 := by
  cases op with
  | acq fresh =>
    simp only [bunnyPoolStep, getConnection]
    cases hl : pool.getLast? with
    | none => simp
    | some s => simp [List.length_dropLast]; omega
  | rel s =>
    simp only [bunnyPoolStep, returnConnection]
    split_ifs with h1 h2 <;> simp <;> omega

/-- Helper: one Hetzner S3 pool transition preserves the capacity bound. -/
theorem hetznerPoolStep_length_le (pool : List Session) (op : PoolOp)
    (h : pool.length ≤ 10) : (hetznerPoolStep pool op).length ≤ 10 := by
  cases op with
  | acq fresh =>
    simp only [hetznerPoolStep, getClient, getConnection]
    cases hl : pool.getLast? with
    | none => simp
    | some s => simp [List.length_dropLast]; omega
  | rel s =>
    simp only [hetznerPoolStep, returnClient]
    split_ifs with h1 h2 <;> simp <;> omega

/-- Counterexample to claim C6: a live session released into a pool
already at its capacity of 10 is not closed by the Hetzner S3 client —
`_return_client` has no else branch, so the reference is dropped with no
explicit close call (unlike Bunny's `ftp.quit()`). -/
theorem release_full_pool_not_closed_cex :
    returnClient tenPool { sid := 10, alive := true } =
      (tenPool, ReleaseOutcome.dropped) ∧
    ReleaseOutcome.dropped ≠ ReleaseOutcome.closed ∧
    Session.alive { sid := 10, alive := true } = true ∧
    tenPool.length = 10 ∧
    returnConnection tenPool { sid := 10, alive := true } =
      (tenPool, ReleaseOutcome.closed) := by
  refine ⟨?_, by decide, rfl, by decide, ?_⟩ <;> rfl

/-- Claim C6 as amended: both release functions probe liveness and append
the session to the idle pool exactly when it is alive and the pool holds
fewer than 10 sessions, so a pool within capacity stays within capacity
under any sequence of acquire/release calls; a live session released into
a full pool is not retained — the Bunny CDN client closes it with
`ftp.quit()` while the Hetzner S3 client merely drops the reference — and
a dead session is discarded without surfacing an error to the caller
(Bunny attempts a quit and swallows any failure; Hetzner just drops). -/
theorem release_capacity_policy (pool : List Session) (s : Session) (ops : List PoolOp)
    (hcap : pool.length ≤ 10) :
    (s.alive = true → pool.length < 10 →
      returnConnection pool s = (pool ++ [s], ReleaseOutcome.returnedToPool) ∧
      returnClient pool s = (pool ++ [s], ReleaseOutcome.returnedToPool)) ∧
    (s.alive = true → 10 ≤ pool.length →
      returnConnection pool s = (pool, ReleaseOutcome.closed) ∧
      returnClient pool s = (pool, ReleaseOutcome.dropped)) ∧
    (s.alive = false →
      returnConnection pool s = (pool, ReleaseOutcome.closed) ∧
      returnClient pool s = (pool, ReleaseOutcome.dropped)) ∧
    (returnConnection pool s).1.length ≤ 10 ∧
    (returnClient pool s).1.length ≤ 10 ∧
    (bunnyPoolRun pool ops).length ≤ 10 ∧
    (hetznerPoolRun pool ops).length ≤ 10 := by
  refine ⟨?_, ?_, ?_, ?_, ?_, ?_, ?_⟩
  · intro ha hlt
    constructor <;> simp [returnConnection, returnClient, ha, hlt]
  · intro ha hge
    have hnlt : ¬pool.length < 10 := by omega
    constructor <;> simp [returnConnection, returnClient, ha, hnlt]
  · intro ha
    constructor <;> simp [returnConnection, returnClient, ha]
  · have := bunnyPoolStep_length_le pool (PoolOp.rel s) hcap
    simpa [bunnyPoolStep] using this
  · have := hetznerPoolStep_length_le pool (PoolOp.rel s) hcap
    simpa [hetznerPoolStep] using this
  · exact poolFold_length_le bunnyPoolStep bunnyPoolStep_length_le ops pool hcap
  · exact poolFold_length_le hetznerPoolStep hetznerPoolStep_length_le ops pool hcap

/-- Witness for `release_capacity_policy`: releasing a live session into
the empty pool returns it to the pool in both backends. -/
theorem release_capacity_policy_witness :
    returnConnection [] { sid := 0, alive := true } =
      ([{ sid := 0, alive := true }], ReleaseOutcome.returnedToPool) ∧
    returnClient [] { sid := 0, alive := true } =
      ([{ sid := 0, alive := true }], ReleaseOutcome.returnedToPool) := by
  have h := (release_capacity_policy [] { sid := 0, alive := true } [] (by simp)).1
    rfl (by simp)
  simpa using h

/-- Counterexample to claim C7: with no extension filter, the claim says
every non-directory entry is returned, but `BunnyCDNClient.list_files`
drops the entry "README" — it has no trailing separator, yet the Bunny
filter keeps only names containing a dot. -/
theorem bunny_list_excludes_plain_file_cex :
    list_files [['R', 'E', 'A', 'D', 'M', 'E']] [] = [] ∧
    endsWithSlash ['R', 'E', 'A', 'D', 'M', 'E'] = false := by
  constructor <;> rfl

/-- Claim C7 as amended: `HetznerS3Client.list_objects` returns exactly
the entries without a trailing separator that pass the case-insensitive
extension suffix test (all of them when the filter list is empty), while
`BunnyCDNClient.list_files` instead keeps exactly the entries containing a
dot ("Assume files have extensions") that pass the same extension test. -/
theorem lister_filters (keys items exts : List Str) (key item : Str) :
    (key ∈ list_objects keys exts ↔
      key ∈ keys ∧ endsWithSlash key = false ∧ (exts = [] ∨ extMatch key exts = true)) ∧
    (item ∈ list_files items exts ↔
      item ∈ items ∧ item.contains '.' = true ∧ (exts = [] ∨ extMatch item exts = true)) := by
  have hk : ∀ k, hetznerKeep exts k = true ↔
      (endsWithSlash k = false ∧ (exts = [] ∨ extMatch k exts = true)) := by
    intro k
    unfold hetznerKeep
    split_ifs with h1 h2 <;> simp_all [List.isEmpty_iff]
  have hb : ∀ k, bunnyKeep exts k = true ↔
      (k.contains '.' = true ∧ (exts = [] ∨ extMatch k exts = true)) := by
    intro k
    unfold bunnyKeep
    split_ifs with h1 h2 <;> simp_all [List.isEmpty_iff]
  constructor
  · simp only [list_objects, List.mem_filter, hk, and_assoc]
  · simp only [list_files, List.mem_filter, hb, and_assoc]

/-- Helper: closed form of the download collection fold — each counter is
the number of items its predicate selects, and each identifier list is the
in-order image of the selected items' names. -/
theorem foldl_stepAgg (cs : List Completed) : ∀ a : Agg,
    cs.foldl stepAgg a =
      { successful := a.successful + (cs.filter isSuccessTask).length,
        failed := a.failed + (cs.filter isFailedTask).length,
        corrupted := a.corrupted + (cs.filter isCorrupt).length,
        failedFiles := a.failedFiles ++ (cs.filter isFailedTask).map Completed.name,
        corruptedFiles := a.corruptedFiles ++ (cs.filter isCorrupt).map Completed.name } := by
  induction cs with
  | nil => intro a; simp
  | cons c rest ih =>
    intro a
    rw [List.foldl_cons, ih]
    cases hres : c.res with
    | ok success de sz =>
      cases success with
      | true =>
        by_cases hcond : (de && decide (0 < sz)) = true
        · simp [stepAgg, hres, hcond, isSuccessTask, isFailedTask, isCorrupt,
                List.filter_cons, Agg.mk.injEq, List.append_assoc] <;> omega
        · simp [stepAgg, hres, hcond, isSuccessTask, isFailedTask, isCorrupt,
                List.filter_cons, Agg.mk.injEq, List.append_assoc] <;> omega
      | false =>
        simp [stepAgg, hres, isSuccessTask, isFailedTask, isCorrupt,
              List.filter_cons, Agg.mk.injEq, List.append_assoc] <;> omega
    | exn =>
      simp [stepAgg, hres, isSuccessTask, isFailedTask, isCorrupt,
            List.filter_cons, Agg.mk.injEq, List.append_assoc] <;> omega

/-- Helper: successful, failed and corrupted classify each completed task
exactly once, so the three filtered lengths partition the task count. -/
theorem taskFilter_partition (cs : List Completed) :
    (cs.filter isSuccessTask).length + (cs.filter isFailedTask).length +
      (cs.filter isCorrupt).length = cs.length := by
  induction cs with
  | nil => simp
  | cons c rest ih =>
    cases hres : c.res with
    | ok success de sz =>
      cases success with
      | true =>
        by_cases hcond : (de && decide (0 < sz)) = true
        · simp [isSuccessTask, isFailedTask, isCorrupt, hres, hcond, List.filter_cons]
          omega
        · simp [isSuccessTask, isFailedTask, isCorrupt, hres, hcond, List.filter_cons]
          omega
      | false =>
        simp [isSuccessTask, isFailedTask, isCorrupt, hres, List.filter_cons]
        omega
    | exn =>
      simp [isSuccessTask, isFailedTask, isCorrupt, hres, List.filter_cons]
      omega

/-- Claim C8: a download task that reported success but whose destination
file is missing or has zero size is counted as Corrupted, not Failed: its
name enters the corrupted-files list shown in the preview, the corrupted
counter counts exactly such items, and the item still contributes to the
`totalAttempted` denominator, since the three counters sum to the number
of completed tasks. -/
theorem download_corrupted_classification (cs : List Completed) (c : Completed)
    (hmem : c ∈ cs) (de : Bool) (sz : ℕ)
    (hres : c.res = TaskResult.ok true de sz) (hbad : de = false ∨ sz = 0) :
    c.name ∈ (downloadAggregate cs).corruptedFiles ∧
    isFailedTask c = false ∧
    (downloadAggregate cs).corrupted = (cs.filter isCorrupt).length ∧
    0 < (downloadAggregate cs).corrupted ∧
    (downloadAggregate cs).successful + (downloadAggregate cs).failed +
      (downloadAggregate cs).corrupted = cs.length := by
  have hcor : isCorrupt c = true := by
    rcases hbad with h | h <;> simp [isCorrupt, hres, h]
  have hagg := foldl_stepAgg cs (Agg.mk 0 0 0 [] [])
  have hda : downloadAggregate cs =
      { successful := (cs.filter isSuccessTask).length,
        failed := (cs.filter isFailedTask).length,
        corrupted := (cs.filter isCorrupt).length,
        failedFiles := (cs.filter isFailedTask).map Completed.name,
        corruptedFiles := (cs.filter isCorrupt).map Completed.name } := by
    unfold downloadAggregate
    simpa using hagg
  have hmemf : c ∈ cs.filter isCorrupt := List.mem_filter.mpr ⟨hmem, hcor⟩
  refine ⟨?_, ?_, ?_, ?_, ?_⟩
  · rw [hda]
    exact List.mem_map_of_mem Completed.name hmemf
  · simp [isFailedTask, hres]
  · rw [hda]
  · rw [hda]
    exact List.length_pos.mpr (List.ne_nil_of_mem hmemf)
  · rw [hda]
    exact taskFilter_partition cs

/-- Witness for `download_corrupted_classification`: a single task whose
transfer reported success but left a zero-size destination file. -/
theorem download_corrupted_classification_witness :
    (['a'] : Str) ∈
      (downloadAggregate [{ name := ['a'], res := TaskResult.ok true true 0 }]).corruptedFiles :=
  (download_corrupted_classification [{ name := ['a'], res := TaskResult.ok true true 0 }]
    { name := ['a'], res := TaskResult.ok true true 0 } (by simp) true 0 rfl (Or.inr rfl)).1

/-- Claim C9: every submitted download task contributes exactly one unit
to exactly one of the three counters, so at the end of
`download_directory` the counters sum to the number of submitted tasks;
a task whose future raises an exception is counted as failed. -/
theorem download_counts_sum (cs : List Completed) :
    (downloadAggregate cs).successful + (downloadAggregate cs).failed +
      (downloadAggregate cs).corrupted = cs.length ∧
    (downloadAggregate cs).failed = (cs.filter isFailedTask).length ∧
    (∀ c : Completed, c.res = TaskResult.exn → isFailedTask c = true) := by
  have hagg := foldl_stepAgg cs (Agg.mk 0 0 0 [] [])
  have hda : downloadAggregate cs =
      { successful := (cs.filter isSuccessTask).length,
        failed := (cs.filter isFailedTask).length,
        corrupted := (cs.filter isCorrupt).length,
        failedFiles := (cs.filter isFailedTask).map Completed.name,
        corruptedFiles := (cs.filter isCorrupt).map Completed.name } := by
    unfold downloadAggregate
    simpa using hagg
  refine ⟨?_, ?_, ?_⟩
  · rw [hda]
    exact taskFilter_partition cs
  · rw [hda]
  · intro c hc
    simp [isFailedTask, hc]

/-- Witness for `download_counts_sum`: one task that raised — it counts
as the single failed unit. -/
theorem download_counts_sum_witness :
    (downloadAggregate [{ name := ['x'], res := TaskResult.exn }]).successful +
      (downloadAggregate [{ name := ['x'], res := TaskResult.exn }]).failed +
      (downloadAggregate [{ name := ['x'], res := TaskResult.exn }]).corrupted = 1 ∧
    isFailedTask { name := ['x'], res := TaskResult.exn } = true :=
  ⟨(download_counts_sum [{ name := ['x'], res := TaskResult.exn }]).1,
   (download_counts_sum [{ name := ['x'], res := TaskResult.exn }]).2.2
     { name := ['x'], res := TaskResult.exn } rfl⟩

/-- Claim C10: when the local source directory does not exist or contains
no regular files, `upload_directory` returns the counts (0, 0) having
submitted zero remote transfer tasks, and the upload subcommand (with the
connection test passed) exits 0, since its failure check only triggers
when `failed > 0`. -/
theorem upload_empty_run_exit_zero (dirExists : Bool) (files : List UploadRes)
    (h : dirExists = false ∨ files = []) :
    upload_directory dirExists files = ((0, 0), 0) ∧
    upload_command true dirExists files = 0 := by
  have hdir : upload_directory dirExists files = ((0, 0), 0) := by
    rcases h with h | h
    · subst h; rfl
    · subst h; simp [upload_directory]
  refine ⟨hdir, ?_⟩
  simp [upload_command, hdir, uploadExitCode]

/-- Witness for `upload_empty_run_exit_zero` at a missing local directory. -/
theorem upload_empty_run_exit_zero_witness :
    upload_directory false [] = ((0, 0), 0) ∧ upload_command true false [] = 0 :=
  upload_empty_run_exit_zero false [] (Or.inl rfl)
